import Mathlib

/-!
Shallow embedding of `create_generator_model.py`, a Blender (`bpy`) script
that procedurally builds a stylized magnetic-generator scene and exports it
to a binary glTF file.

Modelling conventions:
* Python float literals are modelled as exact rationals (`ℚ`).
* Float arithmetic appearing in object coordinates (which mixes literals
  with `math.pi`, `math.cos`, `math.sin`) is kept as a symbolic expression
  type `RVal`, so every definition stays executable and decidable.
* Blender data blocks (`bpy.data.meshes`, `bpy.data.materials`, ...) are
  lists of records; data blocks other than materials are referenced by a
  numeric id allocated from a counter (Blender would rename duplicate data
  block names; nothing in the script depends on those generated names).
  Materials are referenced by name, as the script itself does via
  `bpy.data.materials.get(name)`; Blender keeps material names unique.
* A data block's user count is its `fakeUsers` field (users other than the
  scene objects / data blocks modelled here) plus the references counted
  from the modelled state, matching the live `block.users` value the
  script reads in `clean_scene`.
* `bpy.ops.mesh.primitive_*_add` deselects every other object and leaves
  the new object selected and active; `bpy.data.objects.new` plus
  `collection.objects.link` leaves the new object unselected and does not
  change the active object.
* A material without a node tree (or whose node tree has no node named
  "Principled BSDF") is modelled as `principled = none`; on such a
  material `create_material` dereferences `None` and raises, which the
  embedding reflects as an `Except.error`.
* `bezier_points.add(count)` is an RNA function whose integer argument is
  clamped to its hard range `[0, INT_MAX]`, so a negative count is a
  silent no-op; the embedding uses `Int.toNat` for this clamp.
-/

set_option maxRecDepth 10000

namespace GenModel

/-- Symbolic scalar: Python float arithmetic over literals, `math.pi`,
`math.cos` and `math.sin`, kept un-evaluated. -/
inductive RVal : Type
  | lit (q : ℚ)
  | pi
  | cos (a : RVal)
  | sin (a : RVal)
  | add (a b : RVal)
  | sub (a b : RVal)
  | mul (a b : RVal)
  | div (a b : RVal)
deriving DecidableEq, Repr

/-- A 3-vector of symbolic scalars (`mathutils.Vector` / `Euler` values). -/
structure Vec3 where
  x : RVal
  y : RVal
  z : RVal
deriving DecidableEq, Repr

/-- Componentwise vector addition (`Vector.__add__`). -/
def Vec3.addv (a b : Vec3) : Vec3 := ⟨.add a.x b.x, .add a.y b.y, .add a.z b.z⟩

/-- Componentwise vector subtraction (`Vector.__sub__`). -/
def Vec3.subv (a b : Vec3) : Vec3 := ⟨.sub a.x b.x, .sub a.y b.y, .sub a.z b.z⟩

/-- A vector of rational literals. -/
def vlit (x y z : ℚ) : Vec3 := ⟨.lit x, .lit y, .lit z⟩

/-- The zero vector (default location / rotation). -/
def vzero : Vec3 := vlit 0 0 0

/-- A 3-vector of plain rationals (object scale values, always literal). -/
structure QVec3 where
  x : ℚ
  y : ℚ
  z : ℚ
deriving DecidableEq, Repr

/-- An RGBA color (all color literals in the script are rational). -/
structure Color where
  r : ℚ
  g : ℚ
  b : ℚ
  a : ℚ
deriving DecidableEq, Repr

/-- The three Principled BSDF inputs the script touches. -/
structure Principled where
  baseColor : Color
  metallic : ℚ
  roughness : ℚ
deriving DecidableEq, Repr

/-- Blender's defaults for those inputs when `use_nodes` first creates the
Principled BSDF node. -/
def defaultPrincipled : Principled := ⟨⟨0.8, 0.8, 0.8, 1⟩, 0, 0.5⟩

/-- A material data block; `principled = none` models a material with no
node tree or no node named "Principled BSDF". -/
structure MatBlock where
  name : String
  principled : Option Principled
  fakeUsers : Nat
deriving DecidableEq, Repr

/-- Mesh geometry as produced by the primitive operators used in the
script, with object scale baked in by `transform_apply`. -/
inductive Geo : Type
  | box (dx dy dz : ℚ)
  | cylinder (radius depth : ℚ)
  | torus (major minor : ℚ)
deriving DecidableEq, Repr

/-- A mesh data block; `mats` is the data block's material slot list
(material names). -/
structure MeshBlock where
  id : Nat
  name : String
  geo : Geo
  mats : List String
  fakeUsers : Nat
deriving DecidableEq, Repr

/-- One bezier control point (`co` plus the two handle types). -/
structure BezPoint where
  co : Vec3
  hLeft : String
  hRight : String
deriving DecidableEq, Repr

/-- A freshly allocated bezier point: origin, 'FREE' handles. -/
def defaultBezPoint : BezPoint := ⟨vzero, "FREE", "FREE"⟩

/-- A curve data block; each spline is its list of bezier points. -/
structure CurveBlock where
  id : Nat
  name : String
  dims : String
  splines : List (List BezPoint)
  bevelDepth : ℚ
  bevelRes : Nat
  mats : List String
  fakeUsers : Nat
deriving DecidableEq, Repr

/-- A camera data block. -/
structure CamBlock where
  id : Nat
  name : String
deriving DecidableEq, Repr

/-- A light data block (the script only sets kind, energy and size). -/
structure LightBlock where
  id : Nat
  name : String
  kind : String
  energy : ℚ
  size : ℚ
deriving DecidableEq, Repr

/-- The data block an object points at. -/
inductive ObjData : Type
  | mesh (id : Nat)
  | curve (id : Nat)
  | cam (id : Nat)
  | light (id : Nat)
deriving DecidableEq, Repr

/-- A scene object. -/
structure Obj where
  name : String
  data : ObjData
  location : Vec3
  rotationEuler : Vec3
  scale : QVec3
  selected : Bool
  parent : Option String
deriving DecidableEq, Repr

/-- The render settings the script writes. -/
structure RenderSettings where
  engine : String
  cyclesSamples : Nat
  cyclesDevice : String
  filmTransparent : Bool
  viewTransform : String
deriving DecidableEq, Repr

/-- The world background settings the script writes. -/
structure WorldState where
  useNodes : Bool
  bgColor : Color
  bgStrength : ℚ
deriving DecidableEq, Repr

/-- The Blender state visible to the script: data blocks, the scene's
object list (collection), context, scene settings, and the observable
outputs (exporter invocations and stdout). -/
structure State where
  objects : List Obj
  meshes : List MeshBlock
  curves : List CurveBlock
  materials : List MatBlock
  cams : List CamBlock
  lights : List LightBlock
  active : Option String
  world : WorldState
  unitSystem : String
  unitScale : ℚ
  render : RenderSettings
  sceneCamera : Option String
  exports : List (String × String)
  stdout : List String
  nextId : Nat
deriving DecidableEq, Repr

/-- A state with nothing in it. -/
def emptyState : State :=
  { objects := [], meshes := [], curves := [], materials := [], cams := [],
    lights := [], active := none,
    world := ⟨false, ⟨0.05, 0.05, 0.05, 1⟩, 1⟩,
    unitSystem := "NONE", unitScale := 1,
    render := ⟨"BLENDER_EEVEE", 0, "CPU", false, "Standard"⟩,
    sceneCamera := none, exports := [], stdout := [], nextId := 0 }

/-- String prefix test, modelling Python's `str.startswith`. -/
def hasPrefixStr (pre s : String) : Bool := pre.data.isPrefixOf s.data

/-- Location of the named object (the scripts reads locations through
Python variables that hold objects; names are unique here). -/
def objLoc (s : State) (n : String) : Vec3 :=
  ((s.objects.find? fun o => decide (o.name = n)).map (·.location)).getD vzero

-- ---------- host primitives ----------

/-- `bpy.ops.object.select_all(action='SELECT')`. -/
def select_all (s : State) : State :=
  { s with objects := s.objects.map fun o => { o with selected := true } }

/-- `bpy.ops.object.select_all(action='DESELECT')`. -/
def deselect_all (s : State) : State :=
  { s with objects := s.objects.map fun o => { o with selected := false } }

/-- `bpy.ops.object.delete(use_global=False)`: removes the selected
objects from the scene. -/
def delete_selected (s : State) : State :=
  { s with objects := s.objects.filter fun o => !o.selected }

/-- The live user count of a mesh data block: fake/extra users plus the
scene objects referencing it. -/
def meshUsers (s : State) (m : MeshBlock) : Nat :=
  m.fakeUsers + (s.objects.filter fun o => decide (o.data = ObjData.mesh m.id)).length

/-- The live user count of a material data block: fake/extra users plus
the mesh and curve data blocks holding it in a slot. -/
def matUsers (s : State) (b : MatBlock) : Nat :=
  b.fakeUsers + (s.meshes.filter fun m => decide (b.name ∈ m.mats)).length
    + (s.curves.filter fun c => decide (b.name ∈ c.mats)).length

/-- `clean_scene()`: select all objects, delete them, then remove every
mesh data block and every material data block whose user count is zero. -/
def clean_scene (s : State) : State :=
  let s1 := delete_selected (select_all s)
  let s2 := { s1 with meshes := s1.meshes.filter fun b => meshUsers s1 b != 0 }
  { s2 with materials := s2.materials.filter fun b => matUsers s2 b != 0 }

/-- Shared effect of `bpy.ops.mesh.primitive_*_add`: allocate a mesh data
block and an object at the given location/rotation; the new object ends up
selected and active, everything else deselected. -/
def pushMeshObj (dataName : String) (g : Geo) (objName : String) (loc rot : Vec3)
    (s : State) : State :=
  let m : MeshBlock := ⟨s.nextId, dataName, g, [], 0⟩
  let o : Obj :=
    { name := objName, data := .mesh s.nextId, location := loc, rotationEuler := rot,
      scale := ⟨1, 1, 1⟩, selected := true, parent := none }
  { s with
    meshes := s.meshes ++ [m],
    objects := (s.objects.map fun p => { p with selected := false }) ++ [o],
    active := some objName,
    nextId := s.nextId + 1 }

/-- `bpy.ops.mesh.primitive_cube_add(size=..., location=..., rotation=...)`:
a cube of the given edge length. -/
def primitive_cube_add (size : ℚ) (loc rot : Vec3) (s : State) : State :=
  pushMeshObj "Cube" (.box size size size) "Cube" loc rot s

/-- `bpy.ops.mesh.primitive_cylinder_add(radius=..., depth=..., ...)`. -/
def primitive_cylinder_add (radius depth : ℚ) (loc rot : Vec3) (s : State) : State :=
  pushMeshObj "Cylinder" (.cylinder radius depth) "Cylinder" loc rot s

/-- `bpy.ops.mesh.primitive_torus_add(major_radius=..., minor_radius=..., ...)`. -/
def primitive_torus_add (major minor : ℚ) (loc rot : Vec3) (s : State) : State :=
  pushMeshObj "Torus" (.torus major minor) "Torus" loc rot s

/-- `obj.name = n` on the active object. -/
def renameActive (n : String) (s : State) : State :=
  match s.active with
  | none => s
  | some a =>
    { s with
      objects := s.objects.map fun o => if o.name = a then { o with name := n } else o,
      active := some n }

/-- `obj.scale = v` on the active object. -/
def setScaleActive (v : QVec3) (s : State) : State :=
  match s.active with
  | none => s
  | some a =>
    { s with objects := s.objects.map fun o => if o.name = a then { o with scale := v } else o }

/-- `obj.rotation_euler = Euler(v, 'XYZ')` on the active object. -/
def setRotActive (v : Vec3) (s : State) : State :=
  match s.active with
  | none => s
  | some a =>
    { s with
      objects := s.objects.map fun o =>
        if o.name = a then { o with rotationEuler := v } else o }

/-- Bake an object scale into mesh geometry. -/
def bakeGeo (g : Geo) (sc : QVec3) : Geo :=
  match g with
  | .box dx dy dz => .box (dx * sc.x) (dy * sc.y) (dz * sc.z)
  | .cylinder r d => .cylinder (r * sc.x) (d * sc.z)
  | .torus a b => .torus (a * sc.x) (b * sc.x)

/-- `bpy.ops.object.transform_apply(scale=True)`: bake every selected
object's scale into its mesh data and reset the object scale to 1. -/
def transform_apply_scale (s : State) : State :=
  { s with
    meshes := s.meshes.map fun m =>
      match s.objects.find? fun o => o.selected && decide (o.data = ObjData.mesh m.id) with
      | some o => { m with geo := bakeGeo m.geo o.scale }
      | none => m,
    objects := s.objects.map fun o =>
      if o.selected then { o with scale := ⟨1, 1, 1⟩ } else o }

/-- `obj.data.materials.append(mat)` on the active object's mesh data. -/
def appendMatToActiveMesh (mt : String) (s : State) : State :=
  match s.active with
  | none => s
  | some a =>
    match s.objects.find? fun o => decide (o.name = a) with
    | none => s
    | some o =>
      match o.data with
      | .mesh i =>
        { s with meshes := s.meshes.map fun m =>
            if m.id = i then { m with mats := m.mats ++ [mt] } else m }
      | _ => s

/-- The `if obj.data.materials: obj.data.materials[0] = material else:
append` branch of `add_mesh_cube`, on the active object's mesh data. -/
def setMatSlot0OrAppendActive (mt : String) (s : State) : State :=
  match s.active with
  | none => s
  | some a =>
    match s.objects.find? fun o => decide (o.name = a) with
    | none => s
    | some o =>
      match o.data with
      | .mesh i =>
        { s with meshes := s.meshes.map fun m =>
            if m.id = i then
              { m with mats := if m.mats = [] then [mt] else m.mats.set 0 mt }
            else m }
      | _ => s

-- ---------- the script's helper functions ----------

/-- Writing the Principled inputs of the material registered under the
given name (material names are unique in Blender's data block store). -/
def matOverwrite (name : String) (mat' : MatBlock) (s : State) : State :=
  { s with materials := s.materials.map fun b => if b.name = name then mat' else b }

/-- `create_material(name, base_color, metallic, roughness)`. A fresh
material gets `use_nodes = True` (a Principled BSDF with default inputs)
before the three inputs are written; on an existing material the three
inputs are written directly, which raises (`AttributeError`) when the
material has no Principled BSDF node. -/
def create_material (name : String) (base_color : Color) (metallic roughness : ℚ)
    (s : State) : Except String (MatBlock × State) :=
  match s.materials.find? fun b => decide (b.name = name) with
  | some mat =>
    match mat.principled with
    | none => .error "AttributeError: material has no Principled BSDF node"
    | some _ =>
      let mat' := { mat with principled := some ⟨base_color, metallic, roughness⟩ }
      .ok (mat', matOverwrite name mat' s)
  | none =>
    let mat' : MatBlock := { name := name, principled := some ⟨base_color, metallic, roughness⟩,
                             fakeUsers := 0 }
    .ok (mat', { s with materials := s.materials ++ [mat'] })

/-- `add_mesh_cube(name, size, location, rotation, material)`: host cube
primitive with `size=1`, rename, set scale to `size/2`, apply the scale,
then material slot-0-or-append. -/
def add_mesh_cube (name : String) (size : ℚ) (loc rot : Vec3) (material : Option String)
    (s : State) : State :=
  let s1 := primitive_cube_add 1 loc rot s
  let s2 := renameActive name s1
  let s3 := setScaleActive ⟨size / 2, size / 2, size / 2⟩ s2
  let s4 := transform_apply_scale s3
  match material with
  | none => s4
  | some mt => setMatSlot0OrAppendActive mt s4

/-- `add_cylinder(name, radius, depth, location, rotation, material)`. -/
def add_cylinder (name : String) (radius depth : ℚ) (loc rot : Vec3)
    (material : Option String) (s : State) : State :=
  let s1 := primitive_cylinder_add radius depth loc rot s
  let s2 := renameActive name s1
  match material with
  | none => s2
  | some mt => appendMatToActiveMesh mt s2

/-- `add_torus(name, major_radius, minor_radius, location, rotation, material)`. -/
def add_torus (name : String) (major minor : ℚ) (loc rot : Vec3)
    (material : Option String) (s : State) : State :=
  let s1 := primitive_torus_add major minor loc rot s
  let s2 := renameActive name s1
  match material with
  | none => s2
  | some mt => appendMatToActiveMesh mt s2

/-- `add_plane(name, size_x, size_y, thickness, location, material)`: a
thin box built like `add_mesh_cube` but with a plain material append. -/
def add_plane (name : String) (size_x size_y thickness : ℚ) (loc : Vec3)
    (material : Option String) (s : State) : State :=
  let s1 := primitive_cube_add 1 loc vzero s
  let s2 := renameActive name s1
  let s3 := setScaleActive ⟨size_x / 2, size_y / 2, thickness / 2⟩ s2
  let s4 := transform_apply_scale s3
  match material with
  | none => s4
  | some mt => appendMatToActiveMesh mt s4

/-- The `for i, p in enumerate(points)` loop of `add_bezier_cable`: write
each input point's coordinates and set both handle types to 'AUTO'. The
allocated point list is never shorter than the input list. -/
def setPts : List BezPoint → List Vec3 → List BezPoint
  | bps, [] => bps
  | [], _ :: _ => []
  | bp :: bps, p :: ps =>
    { bp with co := p, hLeft := "AUTO", hRight := "AUTO" } :: setPts bps ps

/-- `add_bezier_cable(name, points, bevel_depth, material)`: new curve data
(one BEZIER spline, which starts with one allocated point), `add` of
`len(points)-1` further points (the host clamps a negative count to zero),
the point-writing loop, a new object linked into the collection, bevel
settings, and the material branch (a fresh curve data block has no slots,
so the append arm runs). -/
def add_bezier_cable (name : String) (points : List Vec3) (bevel_depth : ℚ)
    (material : Option String) (s : State) : State :=
  let addCount : Nat := ((points.length : Int) - 1).toNat
  let pts := setPts (defaultBezPoint :: List.replicate addCount defaultBezPoint) points
  let mats : List String :=
    match material with
    | none => []
    | some mt => [mt]
  let cd : CurveBlock := ⟨s.nextId, name ++ "_curve", "3D", [pts], bevel_depth, 6, mats, 0⟩
  let o : Obj :=
    { name := name, data := .curve s.nextId, location := vzero, rotationEuler := vzero,
      scale := ⟨1, 1, 1⟩, selected := false, parent := none }
  { s with
    curves := s.curves ++ [cd],
    objects := s.objects ++ [o],
    nextId := s.nextId + 1 }

-- ---------- source constants ----------

/-- `shaft_height = 0.12`. -/
def shaft_height : ℚ := 0.12

/-- `disk_radius = 0.08`. -/
def disk_radius : ℚ := 0.08

/-- `disk_thickness = 0.01`. -/
def disk_thickness : ℚ := 0.01

/-- `num_magnets = 8`. -/
def num_magnets : Nat := 8

/-- `mag_size = 0.02`. -/
def mag_size : ℚ := 0.02

/-- `coil_major = 0.055`. -/
def coil_major : ℚ := 0.055

/-- `coil_minor = 0.012`. -/
def coil_minor : ℚ := 0.012

/-- `pcb_x = 0.09`. -/
def pcb_x : ℚ := 0.09

/-- `pcb_y = -0.05`. -/
def pcb_y : ℚ := -0.05

/-- `export_path = "/tmp/magnetic_generator.glb"`. -/
def export_path : String := "/tmp/magnetic_generator.glb"

/-- `math.radians(d)` = `d * pi / 180`. -/
def radiansOf (d : ℚ) : RVal := .mul (.lit d) (.div .pi (.lit 180))

-- ---------- the script's top-level statements ----------

/-- One top-level statement of the script (loops over fixed counts are
kept as single statements whose interpretation performs the loop, exactly
as the Python `for` does). -/
inductive Step : Type
  | cleanScene
  | setUnitSystem (v : String)
  | setUnitScale (v : ℚ)
  | createMat (nm : String) (c : Color) (met rough : ℚ)
  | addPlaneStep (nm : String) (sx sy th : ℚ) (loc : Vec3) (mt : Option String)
  | addCylStep (nm : String) (radius depth : ℚ) (loc : Vec3) (mt : Option String)
  | addDisk
  | magnetLoop
  | coilLoop
  | wireLoop
  | addCubeStep (nm : String) (size : ℚ) (loc : Vec3) (mt : Option String)
  | rescaleStep (nm : String) (v : QVec3)
  | addRect
  | addHeatSinkBase
  | finLoop
  | cableBattInv
  | cableInvPcb
  | cableBranchLoop
  | parentDisk
  | parentMagnets
  | addCameraStep
  | setSceneCam
  | addLightStep (nm : String) (energy : ℚ) (loc : Vec3) (size : ℚ)
  | worldSetup
  | setEngine (v : String)
  | setSamples (n : Nat)
  | setDevice (v : String)
  | setFilmTransparent (b : Bool)
  | setViewTransform (v : String)
  | deselectAllStep
  | selectObjsLoop
  | exportStep (path fmt : String)
  | printStep (msg : String)
deriving DecidableEq, Repr

/-- One iteration of the magnet loop (`for i in range(num_magnets)`). -/
def magnetIter (magZ : RVal) (s : State) (i : Nat) : State :=
  let angle : RVal := .mul (.div (.mul (.lit 2) .pi) (.lit (num_magnets : ℚ))) (.lit (i : ℚ))
  let radius_pos : ℚ := disk_radius - mag_size / 2 - 0.005
  let x : RVal := .mul (.cos angle) (.lit radius_pos)
  let y : RVal := .mul (.sin angle) (.lit radius_pos)
  let mt : String := if i % 2 = 0 then "MagnetRed" else "MagnetBlue"
  let s1 := add_mesh_cube ("Magnet_" ++ toString (i + 1)) mag_size ⟨x, y, magZ⟩
              ⟨.lit 0, .lit 0, angle⟩ none s
  let s2 := appendMatToActiveMesh mt s1
  setRotActive ⟨.lit 0, .lit 0, angle⟩ s2

/-- One iteration of the coil loop (`for j in range(4)`). -/
def coilIter (coilZ : RVal) (s : State) (j : Nat) : State :=
  let ang : RVal := .mul (.lit (j : ℚ)) (.div .pi (.lit 2))
  let x : RVal := .mul (.cos ang) (.lit coil_major)
  let y : RVal := .mul (.sin ang) (.lit coil_major)
  let rot : Vec3 := ⟨.div .pi (.lit 2), .lit 0, ang⟩
  add_torus ("Coil_" ++ toString (j + 1)) coil_major coil_minor ⟨x, y, coilZ⟩ rot
    (some "CoilYellow") s

/-- One iteration of the wire loop (`for j in range(4)`). -/
def wireIter (coilZ : RVal) (s : State) (j : Nat) : State :=
  let ang : RVal := .mul (.lit (j : ℚ)) (.div .pi (.lit 2))
  let x : RVal := .mul (.cos ang) (.lit coil_major)
  let y : RVal := .mul (.sin ang) (.lit coil_major)
  add_torus ("Wire_" ++ toString (j + 1)) coil_major (coil_minor * 0.35) ⟨x, y, coilZ⟩
    ⟨.div .pi (.lit 2), .lit 0, ang⟩ (some "Copper") s

/-- One iteration of the heat-sink fin loop (`for f in range(4)`). -/
def finIter (hsLoc : Vec3) (s : State) (f : Nat) : State :=
  let fx : RVal := hsLoc.x
  let fy : RVal := .add (.sub hsLoc.y (.lit 0.004)) (.mul (.lit (f : ℚ)) (.lit 0.002))
  let fz : RVal := .add hsLoc.z (.lit 0.003)
  let s1 := add_mesh_cube ("Fin_" ++ toString (f + 1)) 0.003 ⟨fx, fy, fz⟩ vzero
              (some "HeatSink") s
  let s2 := setScaleActive ⟨0.003 / 2, 0.001 / 2, 0.006 / 2⟩ s1
  transform_apply_scale s2

/-- One iteration of the cable-branch loop (`for idx, coil in
enumerate(...)`; the loop body uses only `idx`, never `coil`). -/
def cableBranchIter (pcbLoc battLoc : Vec3) (coilZ : RVal) (s : State) (idx : Nat) : State :=
  let ang : RVal := .mul (.lit (idx : ℚ)) (.div .pi (.lit 2))
  let coil_pos : Vec3 := ⟨.mul (.cos ang) (.lit coil_major), .mul (.sin ang) (.lit coil_major), coilZ⟩
  let p_start : Vec3 := Vec3.addv pcbLoc (vlit 0 0 0.01)
  let s1 := add_bezier_cable ("Cable_r_" ++ toString (idx + 1))
              [p_start, Vec3.addv coil_pos (vlit 0 0 0.02)] 0.0022 (some "CableRed") s
  add_bezier_cable ("Cable_b_" ++ toString (idx + 1))
    [Vec3.addv battLoc (vlit 0.03 0 0.01), Vec3.subv coil_pos (vlit 0 0 0.02)]
    0.0022 (some "CableBlack") s1

/-- Interpret one top-level statement. The only statement that can fail in
the embedding is `create_material` (on a pre-existing material without a
Principled BSDF node); every other statement is total here. -/
def exec : Step → State → Except String State
  | .cleanScene, s => .ok (clean_scene s)
  | .setUnitSystem v, s => .ok { s with unitSystem := v }
  | .setUnitScale v, s => .ok { s with unitScale := v }
  | .createMat nm c met rough, s =>
    match create_material nm c met rough s with
    | .error e => .error e
    | .ok (_, s') => .ok s'
  | .addPlaneStep nm sx sy th loc mt, s => .ok (add_plane nm sx sy th loc mt s)
  | .addCylStep nm r d loc mt, s => .ok (add_cylinder nm r d loc vzero mt s)
  | .addDisk, s =>
    let z : RVal := .sub (.add (.add (objLoc s "Shaft").z (.lit (shaft_height / 2)))
                      (.lit (disk_thickness / 2))) (.lit 0.01)
    .ok (add_cylinder "RotatingDisk" disk_radius disk_thickness ⟨.lit 0, .lit 0, z⟩ vzero
          (some "Steel") s)
  | .magnetLoop, s =>
    let magZ : RVal := .sub (.add (.add (objLoc s "RotatingDisk").z (.lit (disk_thickness / 2)))
                        (.lit (mag_size / 2))) (.lit 0.01)
    .ok ((List.range num_magnets).foldl (magnetIter magZ) s)
  | .coilLoop, s =>
    let coilZ : RVal := (objLoc s "RotatingDisk").z
    .ok ((List.range 4).foldl (coilIter coilZ) s)
  | .wireLoop, s =>
    let coilZ : RVal := (objLoc s "RotatingDisk").z
    .ok ((List.range 4).foldl (wireIter coilZ) s)
  | .addCubeStep nm size loc mt, s => .ok (add_mesh_cube nm size loc vzero mt s)
  | .rescaleStep nm v, s =>
    let s1 := { s with objects := s.objects.map fun o =>
                  if o.name = nm then { o with scale := v } else o }
    .ok (transform_apply_scale s1)
  | .addRect, s =>
    let z : RVal := .add (objLoc s "PCB").z (.lit 0.008)
    .ok (add_mesh_cube "BridgeRectifier" 0.012 ⟨.lit (pcb_x + 0.012), .lit pcb_y, z⟩ vzero
          (some "Plastic") s)
  | .addHeatSinkBase, s =>
    let z : RVal := .add (objLoc s "PCB").z (.lit 0.008)
    .ok (add_mesh_cube "HeatSinkBase" 0.016 ⟨.lit (pcb_x - 0.012), .lit pcb_y, z⟩ vzero
          (some "HeatSink") s)
  | .finLoop, s =>
    let hsLoc := objLoc s "HeatSinkBase"
    .ok ((List.range 4).foldl (finIter hsLoc) s)
  | .cableBattInv, s =>
    .ok (add_bezier_cable "Cable_batt_inv"
          [Vec3.addv (objLoc s "Battery12V") (vlit 0.03 0 0.01),
           Vec3.addv (objLoc s "Inverter500W") (vlit (-0.03) 0 0.01)]
          0.003 (some "CableRed") s)
  | .cableInvPcb, s =>
    .ok (add_bezier_cable "Cable_inv_pcb"
          [Vec3.addv (objLoc s "Inverter500W") (vlit 0.03 0 0.01),
           Vec3.addv (objLoc s "PCB") (vlit (-0.03) 0 0.01)]
          0.003 (some "CableBlack") s)
  | .cableBranchLoop, s =>
    let coilCount := (s.objects.filter fun o => hasPrefixStr "Coil_" o.name).length
    let pcbLoc := objLoc s "PCB"
    let battLoc := objLoc s "Battery12V"
    let coilZ : RVal := (objLoc s "RotatingDisk").z
    .ok ((List.range coilCount).foldl (cableBranchIter pcbLoc battLoc coilZ) s)
  | .parentDisk, s =>
    .ok { s with objects := s.objects.map fun o =>
            if o.name = "RotatingDisk" then { o with parent := some "Shaft" } else o }
  | .parentMagnets, s =>
    .ok { s with objects := s.objects.map fun o =>
            if hasPrefixStr "Magnet_" o.name then { o with parent := some "RotatingDisk" } else o }
  | .addCameraStep, s =>
    let cd : CamBlock := ⟨s.nextId, "Camera"⟩
    let o : Obj :=
      { name := "Camera", data := .cam s.nextId, location := vlit 0.6 (-0.6) 0.45,
        rotationEuler := ⟨radiansOf 60, .lit 0, radiansOf 45⟩,
        scale := ⟨1, 1, 1⟩, selected := false, parent := none }
    .ok { s with cams := s.cams ++ [cd], objects := s.objects ++ [o], nextId := s.nextId + 1 }
  | .setSceneCam, s => .ok { s with sceneCamera := some "Camera" }
  | .addLightStep nm energy loc size, s =>
    let ld : LightBlock := ⟨s.nextId, nm, "AREA", energy, size⟩
    let o : Obj :=
      { name := nm, data := .light s.nextId, location := loc, rotationEuler := vzero,
        scale := ⟨1, 1, 1⟩, selected := false, parent := none }
    .ok { s with lights := s.lights ++ [ld], objects := s.objects ++ [o], nextId := s.nextId + 1 }
  | .worldSetup, s =>
    .ok { s with world := ⟨true, ⟨0.03, 0.03, 0.03, 1⟩, 0.6⟩ }
  | .setEngine v, s => .ok { s with render := { s.render with engine := v } }
  | .setSamples n, s => .ok { s with render := { s.render with cyclesSamples := n } }
  | .setDevice v, s => .ok { s with render := { s.render with cyclesDevice := v } }
  | .setFilmTransparent b, s => .ok { s with render := { s.render with filmTransparent := b } }
  | .setViewTransform v, s => .ok { s with render := { s.render with viewTransform := v } }
  | .deselectAllStep, s => .ok (deselect_all s)
  | .selectObjsLoop, s => .ok (select_all s)
  | .exportStep path fmt, s => .ok { s with exports := s.exports ++ [(path, fmt)] }
  | .printStep m, s => .ok { s with stdout := s.stdout ++ [m] }

/-- The script's top-level statement sequence, in source order. -/
def scriptSteps : List Step := [
  .cleanScene,
  .setUnitSystem "METRIC",
  .setUnitScale 1,
  .createMat "Wood" ⟨0.44, 0.27, 0.12, 1⟩ 0 0.6,
  .createMat "Steel" ⟨0.8, 0.85, 0.9, 1⟩ 1 0.18,
  .createMat "MagnetRed" ⟨0.8, 0.05, 0.05, 1⟩ 0 0.25,
  .createMat "MagnetBlue" ⟨0.05, 0.2, 0.8, 1⟩ 0 0.25,
  .createMat "Copper" ⟨0.85, 0.45, 0.2, 1⟩ 1 0.3,
  .createMat "CoilYellow" ⟨0.95, 0.82, 0.2, 1⟩ 0.1 0.35,
  .createMat "Plastic" ⟨0.95, 0.95, 0.95, 1⟩ 0 0.45,
  .createMat "PCB" ⟨0.06, 0.5, 0.06, 1⟩ 0 0.35,
  .createMat "BatteryBlue" ⟨0.06, 0.2, 0.8, 1⟩ 0 0.3,
  .createMat "InverterGray" ⟨0.45, 0.45, 0.45, 1⟩ 0 0.35,
  .createMat "CableRed" ⟨0.8, 0.05, 0.05, 1⟩ 0 0.6,
  .createMat "CableBlack" ⟨0.02, 0.02, 0.02, 1⟩ 0 0.6,
  .createMat "HeatSink" ⟨0.6, 0.63, 0.65, 1⟩ 1 0.2,
  .addPlaneStep "WoodenBase" 0.30 0.30 0.02 (vlit 0 0 (-0.01)) (some "Wood"),
  .addCylStep "Shaft" 0.008 shaft_height (vlit 0 0 (shaft_height / 2 - 0.01)) (some "Steel"),
  .addDisk,
  .magnetLoop,
  .coilLoop,
  .wireLoop,
  .addCubeStep "PCB" 0.06 (vlit pcb_x pcb_y 0.01) (some "PCB"),
  .rescaleStep "PCB" ⟨0.06 / 2, 0.04 / 2, 0.003 / 2⟩,
  .addRect,
  .addHeatSinkBase,
  .rescaleStep "HeatSinkBase" ⟨0.016 / 2, 0.012 / 2, 0.002 / 2⟩,
  .finLoop,
  .addCubeStep "Battery12V" 0.05 (vlit (-0.09) (-0.07) 0.02) (some "BatteryBlue"),
  .rescaleStep "Battery12V" ⟨0.05 / 2, 0.02 / 2, 0.03 / 2⟩,
  .addCubeStep "Inverter500W" 0.12 (vlit (-0.09) 0.07 0.02) (some "InverterGray"),
  .rescaleStep "Inverter500W" ⟨0.12 / 2, 0.06 / 2, 0.04 / 2⟩,
  .cableBattInv,
  .cableInvPcb,
  .cableBranchLoop,
  .parentDisk,
  .parentMagnets,
  .addCameraStep,
  .setSceneCam,
  .addLightStep "KeyLight" 1200 (vlit 0.5 (-0.5) 0.5) 0.4,
  .addLightStep "FillLight" 400 (vlit (-0.4) (-0.3) 0.4) 0.3,
  .addLightStep "RimLight" 300 (vlit (-0.5) 0.5 0.5) 0.3,
  .worldSetup,
  .setEngine "CYCLES",
  .setSamples 128,
  .setDevice "CPU",
  .setFilmTransparent false,
  .setViewTransform "Filmic",
  .deselectAllStep,
  .selectObjsLoop,
  .exportStep export_path "GLB",
  .printStep ("Exported to " ++ export_path),
  .printStep "Procedural model generation complete."
]

/-- Run a statement list, stopping at the first failure. -/
def pureRun : List Step → State → Except String State
  | [], s => .ok s
  | st :: rest, s =>
    match exec st s with
    | .error e => .error e
    | .ok s' => pureRun rest s'

/-- Run a statement list under a fault model: `phi k` is the failure (if
any) the host raises at the `k`-th statement, counted from `base`. The
script has no handler, so a raised failure is returned as-is. -/
def faultRun (phi : Nat → Option String) : List Step → Nat → State → Except String State
  | [], _, s => .ok s
  | st :: rest, k, s =>
    match phi k with
    | some e => .error e
    | none =>
      match exec st s with
      | .error e => .error e
      | .ok s' => faultRun phi rest (k + 1) s'

/-- Success test on a run result. -/
def runOk (r : Except String State) : Bool :=
  match r with
  | .ok _ => true
  | .error _ => false

/-- A representative host state the script is started in: Blender's
default startup scene (a cube with one material, a point light, and a
camera). -/
def initState : State :=
  { objects := [
      { name := "Cube", data := .mesh 0, location := vzero, rotationEuler := vzero,
        scale := ⟨1, 1, 1⟩, selected := true, parent := none },
      { name := "Light", data := .light 0, location := vlit 4.5 (-4.2) 6, rotationEuler := vzero,
        scale := ⟨1, 1, 1⟩, selected := false, parent := none },
      { name := "Camera", data := .cam 0, location := vlit 7.4 (-6.9) 4.9, rotationEuler := vzero,
        scale := ⟨1, 1, 1⟩, selected := false, parent := none }],
    meshes := [⟨0, "Cube", .box 2 2 2, ["Material"], 0⟩],
    curves := [],
    materials := [⟨"Material", some defaultPrincipled, 0⟩],
    cams := [⟨0, "Camera"⟩],
    lights := [⟨0, "Light", "POINT", 1000, 0.1⟩],
    active := some "Cube",
    world := ⟨true, ⟨0.05, 0.05, 0.05, 1⟩, 1⟩,
    unitSystem := "NONE", unitScale := 1,
    render := ⟨"BLENDER_EEVEE", 0, "CPU", false, "Standard"⟩,
    sceneCamera := some "Camera", exports := [], stdout := [], nextId := 1 }

/-- The state after the whole script has run on `initState` (the run
succeeds; the fallback branch is never taken). -/
def finalState : State :=
  match pureRun scriptSteps initState with
  | .ok s => s
  | .error _ => initState

/-- The state just before the exporter statement (everything up to and
including the select-everything loop). -/
def stateBeforeExport : State :=
  match pureRun (scriptSteps.take (scriptSteps.length - 3)) initState with
  | .ok s => s
  | .error _ => initState

/-- Phase classification of the script's statements, following the spec's
phase list: 0 = clear scene, 1 = define materials, 2 = instantiate
meshes/curves (including their hierarchy links), 3 = link lights and
camera, 4 = render parameters, 5 = exporter invocation (including its
select-everything preamble). Scene-unit setup, world background tweaks
and `print` calls belong to none of the six phases. -/
def phaseOf : Step → Option Nat
  | .cleanScene => some 0
  | .setUnitSystem _ => none
  | .setUnitScale _ => none
  | .createMat _ _ _ _ => some 1
  | .addPlaneStep _ _ _ _ _ _ => some 2
  | .addCylStep _ _ _ _ _ => some 2
  | .addDisk => some 2
  | .magnetLoop => some 2
  | .coilLoop => some 2
  | .wireLoop => some 2
  | .addCubeStep _ _ _ _ => some 2
  | .rescaleStep _ _ => some 2
  | .addRect => some 2
  | .addHeatSinkBase => some 2
  | .finLoop => some 2
  | .cableBattInv => some 2
  | .cableInvPcb => some 2
  | .cableBranchLoop => some 2
  | .parentDisk => some 2
  | .parentMagnets => some 2
  | .addCameraStep => some 3
  | .setSceneCam => some 3
  | .addLightStep _ _ _ _ => some 3
  | .worldSetup => none
  | .setEngine _ => some 4
  | .setSamples _ => some 4
  | .setDevice _ => some 4
  | .setFilmTransparent _ => some 4
  | .setViewTransform _ => some 4
  | .deselectAllStep => some 5
  | .selectObjsLoop => some 5
  | .exportStep _ _ => some 5
  | .printStep _ => none

/-- Is a statement the exporter invocation? -/
def isExportStep : Step → Bool
  | .exportStep _ _ => true
  | _ => false

/-- Is a phase sequence monotonically nondecreasing (each phase completes
before the next begins, and no phase is revisited)? -/
def nondecreasingB : List Nat → Bool
  | [] => true
  | [_] => true
  | a :: b :: t => decide (a ≤ b) && nondecreasingB (b :: t)

/-- The external-input surface a program could read: command-line
arguments, environment variables, a configuration file. The script reads
none of them, so its embedding does not consult the environment. -/
structure Env where
  argv : List String
  environ : List (String × String)
  config : Option String

/-- Run the script in a given external environment. The source contains
no `sys.argv`, `os.environ`, or file reads, so the run ignores `env`. -/
def runWithEnv (_env : Env) (s : State) : Except String State :=
  pureRun scriptSteps s

/-- Formalisation of the spec's passthrough claim for `add_mesh_cube`:
"each helper's observable effect equals that of the underlying host-API
call with the passed literal parameters" (the underlying call is
`bpy.ops.mesh.primitive_cube_add`). -/
def claimed_add_mesh_cube_effect (size : ℚ) (loc rot : Vec3) (s : State) : State :=
  primitive_cube_add size loc rot s

/-- The dimensions of the most recently created mesh data block, when it
is a box. -/
def lastBoxDims (s : State) : Option (ℚ × ℚ × ℚ) :=
  match s.meshes.getLast? with
  | some m =>
    match m.geo with
    | .box a b c => some (a, b, c)
    | _ => none
  | none => none

/-- A scene holding one pre-existing material named "Wood" that has a fake
user (so `clean_scene` keeps it) and no Principled BSDF node. -/
def nodelessState : State :=
  { emptyState with materials := [⟨"Wood", none, 1⟩] }

/-- A scene holding one pre-existing material named "Steel" that does have
a Principled BSDF node. -/
def steelMat : MatBlock := ⟨"Steel", some defaultPrincipled, 0⟩

/-- The scene containing just `steelMat`. -/
def principledState : State := { emptyState with materials := [steelMat] }

-- ---------- helper lemmas ----------

/-- Selecting every object and then deleting the selected objects leaves
no object behind. -/
theorem filter_unselected_after_select_all (l : List Obj) :
    ((l.map fun o => { o with selected := true }).filter fun o => !o.selected) = [] := by
  induction l with
  | nil => rfl
  | cons a t ih => simp [ih]

/-- The concrete run of the whole script on the default startup scene
succeeds. -/
theorem pureRun_script_ok : runOk (pureRun scriptSteps initState) = true := by decide

/-- If a statement list runs through without faults, then running it under
a fault model whose first fault hits statement `k` (counting from `base`)
returns exactly that fault. -/
theorem faultRun_hits_first_fault (steps : List Step) :
    ∀ (phi : Nat → Option String) (base k : Nat) (s : State) (e : String),
      (∀ i, i < k → phi (base + i) = none) → phi (base + k) = some e →
      k < steps.length → runOk (pureRun steps s) = true →
      faultRun phi steps base s = .error e := by
  induction steps with
  | nil =>
    intro phi base k s e _ _ h3 _
    exact absurd h3 (by simp)
  | cons st rest ih =>
    intro phi base k s e h1 h2 h3 h4
    cases k with
    | zero =>
      have hb : phi base = some e := by simpa using h2
      simp [faultRun, hb]
    | succ k' =>
      have hb : phi base = none := by simpa using h1 0 (Nat.succ_pos _)
      cases hx : exec st s with
      | error e' =>
        simp [pureRun, hx, runOk] at h4
      | ok s' =>
        have hrest : faultRun phi rest (base + 1) s' = .error e := by
          refine ih phi (base + 1) k' s' e ?_ ?_ ?_ ?_
          · intro i hi
            have h := h1 (i + 1) (by omega)
            have harith : base + (i + 1) = base + 1 + i := by omega
            rwa [harith] at h
          · have harith : base + (k' + 1) = base + 1 + k' := by omega
            rwa [harith] at h2
          · exact Nat.lt_of_succ_lt_succ (by simpa using h3)
          · simpa only [pureRun, hx] using h4
        simp [faultRun, hb, hx, hrest]

/-- Overwriting under a name rewrites what `find?` sees under that name. -/
theorem find?_matOverwrite (l : List MatBlock) (nm : String) (m' : MatBlock)
    (hm' : m'.name = nm) :
    ∀ mat : MatBlock, l.find? (fun b => decide (b.name = nm)) = some mat →
      ((l.map fun b => if b.name = nm then m' else b).find? fun b => decide (b.name = nm)) =
        some m' := by
  induction l with
  | nil => intro mat h; simp at h
  | cons a t ih =>
    intro mat h
    by_cases ha : a.name = nm
    · simp [List.find?_cons, ha, hm']
    · have h' : t.find? (fun b => decide (b.name = nm)) = some mat := by
        simpa [List.find?_cons, ha] using h
      simpa [List.find?_cons, ha] using ih mat h'

/-- Overwriting the same material twice is the same as overwriting it
once. -/
theorem matOverwrite_idem (nm : String) (m' : MatBlock) (hm' : m'.name = nm) (s : State) :
    matOverwrite nm m' (matOverwrite nm m' s) = matOverwrite nm m' s := by
  simp only [matOverwrite, List.map_map]
  congr 1
  apply List.map_congr_left
  intro a _
  by_cases ha : a.name = nm
  · simp [Function.comp, ha, hm']
  · simp [Function.comp, ha]

/-- Writing the enumerated points over a freshly allocated point list of
the same length yields exactly the input points with 'AUTO' handles. -/
theorem setPts_replicate (ps : List Vec3) :
    setPts (List.replicate ps.length defaultBezPoint) ps =
      ps.map fun p => ⟨p, "AUTO", "AUTO"⟩ := by
  induction ps with
  | nil => rfl
  | cons p ps ih => simp [List.replicate_succ, setPts, ih]

-- ---------- the claims ----------

/-- Claim C1: the script is one linear procedure whose phases run in the
order clear scene (0), define materials (1), instantiate primitive
meshes/curves at literal coordinates (2), link lights and camera (3), set
render parameters (4), invoke the exporter (5); each phase completes
before the next begins and no phase is revisited (the phase sequence of
the statement list is a concatenation of constant blocks in ascending
order, hence nondecreasing). -/
theorem script_runs_phases_in_order :
    scriptSteps.filterMap phaseOf =
      [0] ++ List.replicate 13 1 ++ List.replicate 21 2 ++ List.replicate 5 3 ++
        List.replicate 5 4 ++ List.replicate 3 5 ∧
    nondecreasingB (scriptSteps.filterMap phaseOf) = true := by decide

/-- Claim C2: the magnet loop creates exactly the 8 objects `Magnet_1` …
`Magnet_8` (one per `i in range(num_magnets)` with `num_magnets = 8`) and
the coil loop exactly the 4 objects `Coil_1` … `Coil_4` (one per
`j in range(4)`); the counts come from the fixed literal ranges. -/
theorem magnet_coil_loops_fixed_counts :
    ((finalState.objects.filter fun o => hasPrefixStr "Magnet_" o.name).map (·.name)) =
      (List.range num_magnets).map (fun i => "Magnet_" ++ toString (i + 1)) ∧
    ((finalState.objects.filter fun o => hasPrefixStr "Coil_" o.name).map (·.name)) =
      (List.range 4).map (fun j => "Coil_" ++ toString (j + 1)) := by decide

/-- Claim C3: the exporter runs exactly once, with the literal path
"/tmp/magnetic_generator.glb" and GLB format; the only statements after it
are prints; immediately before it the script deselects everything and then
selects each object, so at the moment of export all 42 scene objects are
selected. -/
theorem export_invoked_once_at_end :
    finalState.exports = [(export_path, "GLB")] ∧
    (scriptSteps.filter isExportStep).length = 1 ∧
    scriptSteps.drop (scriptSteps.length - 5) =
      [.deselectAllStep, .selectObjsLoop, .exportStep export_path "GLB",
       .printStep ("Exported to " ++ export_path),
       .printStep "Procedural model generation complete."] ∧
    stateBeforeExport.objects.all (·.selected) = true ∧
    stateBeforeExport.objects.length = 42 := by decide

/-- Claim C4: whatever scene the script starts in, after `clean_scene`
returns no pre-existing object remains (all were selected and deleted),
every remaining mesh data block and material data block has a nonzero
user count (the zero-user ones were removed), and `clean_scene` is the
script's first statement. -/
theorem clean_scene_resets (s : State) :
    (clean_scene s).objects = [] ∧
    (∀ b ∈ (clean_scene s).meshes, meshUsers (clean_scene s) b ≠ 0) ∧
    (∀ b ∈ (clean_scene s).materials, matUsers (clean_scene s) b ≠ 0) ∧
    scriptSteps.head? = some Step.cleanScene := by
  refine ⟨?_, ?_, ?_, rfl⟩
  · exact filter_unselected_after_select_all s.objects
  · intro b hb
    have hb' := List.mem_filter.mp hb
    exact (by simpa using hb'.2)
  · intro b hb
    have hb' := List.mem_filter.mp hb
    exact (by simpa using hb'.2)

/-- Claim C4 witness: the resetting behaviour at the default startup
scene. -/
theorem clean_scene_resets_witness :
    (clean_scene initState).objects = [] ∧
    (∀ b ∈ (clean_scene initState).meshes, meshUsers (clean_scene initState) b ≠ 0) ∧
    (∀ b ∈ (clean_scene initState).materials, matUsers (clean_scene initState) b ≠ 0) ∧
    scriptSteps.head? = some Step.cleanScene :=
  clean_scene_resets initState

/-- Claim C5 counterexample: `add_mesh_cube` is not a passthrough of the
host cube primitive with the passed parameters. At the magnet size 0.02 it
produces a mesh of edge length 0.01 (it calls the host with size 1 and
applies a scale of size/2), while the claimed effect — the host call with
the passed size — produces edge length 0.02; the resulting states also
differ. -/
theorem add_mesh_cube_not_passthrough :
    add_mesh_cube "Magnet_1" mag_size vzero vzero none emptyState ≠
      claimed_add_mesh_cube_effect mag_size vzero vzero emptyState ∧
    lastBoxDims (add_mesh_cube "Magnet_1" mag_size vzero vzero none emptyState) =
      some (0.01, 0.01, 0.01) ∧
    lastBoxDims (claimed_add_mesh_cube_effect mag_size vzero vzero emptyState) =
      some (mag_size, mag_size, mag_size) := by
  refine ⟨?_, ?_, ?_⟩
  · intro h
    have h1 : (add_mesh_cube "Magnet_1" mag_size vzero vzero none emptyState).objects.map
        (fun o => o.name) = ["Magnet_1"] := by decide
    have h2 : (claimed_add_mesh_cube_effect mag_size vzero vzero emptyState).objects.map
        (fun o => o.name) = ["Cube"] := by decide
    rw [h, h2] at h1
    simp at h1
  · simp only [add_mesh_cube, primitive_cube_add, pushMeshObj, renameActive, setScaleActive,
      transform_apply_scale, bakeGeo, lastBoxDims, emptyState, mag_size]
    norm_num
  · rfl

/-- Claim C5 as amended: each helper wraps its host primitive call without
validation, retry or error handling, but adds renaming and material
assignment; `add_torus` and `add_cylinder` pass their geometric parameters
through unchanged, while `add_mesh_cube` invokes the host cube primitive
with size 1 and then applies a scale of size/2, so its observable effect
is a cube of edge length `size/2`, not the host call with the passed size
parameter. -/
theorem helpers_wrap_host_primitives :
    (∀ (nm : String) (major minor : ℚ) (loc rot : Vec3) (mt : String) (s : State),
      add_torus nm major minor loc rot (some mt) s =
        appendMatToActiveMesh mt (renameActive nm (primitive_torus_add major minor loc rot s))) ∧
    (∀ (nm : String) (radius depth : ℚ) (loc rot : Vec3) (mt : String) (s : State),
      add_cylinder nm radius depth loc rot (some mt) s =
        appendMatToActiveMesh mt
          (renameActive nm (primitive_cylinder_add radius depth loc rot s))) ∧
    (∀ (nm : String) (q : ℚ) (loc rot : Vec3),
      lastBoxDims (add_mesh_cube nm q loc rot none emptyState) = some (q / 2, q / 2, q / 2)) := by
  refine ⟨fun _ _ _ _ _ _ _ => rfl, fun _ _ _ _ _ _ _ => rfl, fun nm q loc rot => ?_⟩
  simp [add_mesh_cube, primitive_cube_add, pushMeshObj, renameActive, setScaleActive,
    transform_apply_scale, bakeGeo, lastBoxDims, emptyState]

/-- Claim C6: the script has no error handling; if the host raises at the
`k`-th top-level statement (any fault model whose first fault is at `k`),
the failure propagates unhandled out of the script run, which terminates
with exactly that failure. -/
theorem script_propagates_host_faults (phi : Nat → Option String) (k : Nat) (e : String)
    (h1 : ∀ i, i < k → phi i = none) (h2 : phi k = some e) (h3 : k < scriptSteps.length) :
    faultRun phi scriptSteps 0 initState = .error e := by
  refine faultRun_hits_first_fault scriptSteps phi 0 k initState e ?_ ?_ h3 pureRun_script_ok
  · intro i hi; simpa using h1 i hi
  · simpa using h2

/-- Claim C6 witness: a host fault injected at statement 5 (a material
definition) terminates the run with that fault. -/
theorem script_propagates_host_faults_witness :
    faultRun (fun i => if i = 5 then some "RuntimeError" else none) scriptSteps 0 initState =
      .error "RuntimeError" :=
  script_propagates_host_faults _ 5 "RuntimeError"
    (by intro i hi; rw [if_neg (by omega)]) (by simp) (by decide)

/-- Claim C7: the script reads no command-line arguments, configuration
file or environment variables; two runs in any two external environments
from the same host scene state are identical, so everything it produces is
determined by the literal constants in the source. -/
theorem script_reads_no_external_input (e1 e2 : Env) (s : State) :
    runWithEnv e1 s = runWithEnv e2 s := rfl

/-- Claim C8: the only parent/child links in the final scene are the
rotating disk parented to the shaft and each of the 8 magnets parented to
the disk; every other object has no parent. -/
theorem parenting_disk_and_magnets_only :
    finalState.objects.filterMap (fun o => o.parent.map fun p => (o.name, p)) =
      ("RotatingDisk", "Shaft") ::
        (List.range num_magnets).map (fun i => ("Magnet_" ++ toString (i + 1), "RotatingDisk")) := by
  decide

/-- Claim C9 counterexample: `create_material` is not get-or-create for
every name. On a scene whose pre-existing material "Wood" has no
Principled BSDF node, the call raises instead of returning that material
with its inputs overwritten. -/
theorem create_material_nodeless_raises :
    (nodelessState.materials.find? fun b => decide (b.name = "Wood")).isSome = true ∧
    create_material "Wood" ⟨0.44, 0.27, 0.12, 1⟩ 0 0.6 nodelessState =
      .error "AttributeError: material has no Principled BSDF node" :=
  ⟨rfl, rfl⟩

/-- Claim C9 as amended: for a name whose registered material has a
Principled BSDF node, `create_material` returns that material with its
Base Color, Metallic and Roughness inputs overwritten and creates no new
material (the material count is unchanged); a second call with the same
name and arguments returns the same material and leaves the material set
unchanged (idempotence). On a registered material without such a node the
call raises instead. -/
theorem create_material_get_or_overwrite (s : State) (nm : String) (c : Color)
    (met rough : ℚ) (mat : MatBlock)
    (hf : s.materials.find? (fun b => decide (b.name = nm)) = some mat)
    (hp : mat.principled.isSome = true) :
    create_material nm c met rough s =
      .ok ({ mat with principled := some ⟨c, met, rough⟩ },
           matOverwrite nm { mat with principled := some ⟨c, met, rough⟩ } s) ∧
    (matOverwrite nm { mat with principled := some ⟨c, met, rough⟩ } s).materials.length =
      s.materials.length ∧
    create_material nm c met rough
        (matOverwrite nm { mat with principled := some ⟨c, met, rough⟩ } s) =
      .ok ({ mat with principled := some ⟨c, met, rough⟩ },
           matOverwrite nm { mat with principled := some ⟨c, met, rough⟩ } s) := by
  obtain ⟨p, hp'⟩ := Option.isSome_iff_exists.mp hp
  have hname : mat.name = nm := by
    have := List.find?_some hf
    simpa using this
  have hm' : ({ mat with principled := some ⟨c, met, rough⟩ } : MatBlock).name = nm := hname
  refine ⟨?_, ?_, ?_⟩
  · simp [create_material, hf, hp']
  · simp [matOverwrite]
  · have hfind : ((matOverwrite nm { mat with principled := some ⟨c, met, rough⟩ } s).materials.find?
        fun b => decide (b.name = nm)) = some { mat with principled := some ⟨c, met, rough⟩ } :=
      find?_matOverwrite s.materials nm { mat with principled := some ⟨c, met, rough⟩ } hm' mat hf
    have hidem := matOverwrite_idem nm { mat with principled := some ⟨c, met, rough⟩ } hm' s
    simp [create_material, hfind, hidem]

/-- Claim C9 witness: overwriting the pre-existing Principled material
"Steel" is a get-and-overwrite and is idempotent. -/
theorem create_material_get_or_overwrite_witness :
    create_material "Steel" ⟨0.8, 0.85, 0.9, 1⟩ 1 0.18 principledState =
      .ok ({ steelMat with principled := some ⟨⟨0.8, 0.85, 0.9, 1⟩, 1, 0.18⟩ },
           matOverwrite "Steel" { steelMat with principled := some ⟨⟨0.8, 0.85, 0.9, 1⟩, 1, 0.18⟩ }
             principledState) ∧
    (matOverwrite "Steel" { steelMat with principled := some ⟨⟨0.8, 0.85, 0.9, 1⟩, 1, 0.18⟩ }
        principledState).materials.length = principledState.materials.length ∧
    create_material "Steel" ⟨0.8, 0.85, 0.9, 1⟩ 1 0.18
        (matOverwrite "Steel" { steelMat with principled := some ⟨⟨0.8, 0.85, 0.9, 1⟩, 1, 0.18⟩ }
          principledState) =
      .ok ({ steelMat with principled := some ⟨⟨0.8, 0.85, 0.9, 1⟩, 1, 0.18⟩ },
           matOverwrite "Steel" { steelMat with principled := some ⟨⟨0.8, 0.85, 0.9, 1⟩, 1, 0.18⟩ }
             principledState) :=
  create_material_get_or_overwrite principledState "Steel" ⟨0.8, 0.85, 0.9, 1⟩ 1 0.18 steelMat
    (by rfl) (by rfl)

/-- Claim C10 counterexample: on the empty point list `add_bezier_cable`
does not fail; it still creates one new curve object, whose single spline
keeps the one freshly allocated control point at the origin with 'FREE'
handles (the host clamps the negative `add` count to zero). -/
theorem add_bezier_cable_empty_still_creates :
    (add_bezier_cable "CableX" [] 0.003 none emptyState).objects.length =
      emptyState.objects.length + 1 ∧
    (add_bezier_cable "CableX" [] 0.003 none emptyState).curves =
      [⟨0, "CableX_curve", "3D", [[defaultBezPoint]], 0.003, 6, [], 0⟩] :=
  ⟨rfl, rfl⟩

/-- Claim C10 as amended: for every non-empty list of n points,
`add_bezier_cable` creates exactly one new curve object whose single
bezier spline has exactly n control points whose coordinates equal the
input points in order, each with 'AUTO' handle types and the given bevel
depth; for the empty list the operation does not fail but creates a curve
object whose single spline has one default control point. -/
theorem add_bezier_cable_nonempty (nm : String) (points : List Vec3) (bd : ℚ)
    (mo : Option String) (s : State) (h : points ≠ []) :
    (add_bezier_cable nm points bd mo s).objects =
      s.objects ++ [{ name := nm, data := .curve s.nextId, location := vzero,
                      rotationEuler := vzero, scale := ⟨1, 1, 1⟩, selected := false,
                      parent := none }] ∧
    (add_bezier_cable nm points bd mo s).curves =
      s.curves ++ [⟨s.nextId, nm ++ "_curve", "3D",
                    [points.map fun p => ⟨p, "AUTO", "AUTO"⟩], bd, 6, mo.toList, 0⟩] := by
  obtain ⟨p, ps, rfl⟩ := List.exists_cons_of_ne_nil h
  have hcount : ((((p :: ps).length : Nat) : Int) - 1).toNat = ps.length := by
    simp only [List.length_cons]
    omega
  constructor
  · cases mo <;> rfl
  · cases mo <;>
      simp [add_bezier_cable, hcount, setPts, setPts_replicate, Option.toList]

/-- Claim C10 witness: a two-point cable from the empty scene. -/
theorem add_bezier_cable_nonempty_witness :
    (add_bezier_cable "W" [vzero, vlit 1 2 3] 0.01 (some "CableRed") emptyState).objects =
      emptyState.objects ++ [{ name := "W", data := .curve emptyState.nextId, location := vzero,
                               rotationEuler := vzero, scale := ⟨1, 1, 1⟩, selected := false,
                               parent := none }] ∧
    (add_bezier_cable "W" [vzero, vlit 1 2 3] 0.01 (some "CableRed") emptyState).curves =
      emptyState.curves ++ [⟨emptyState.nextId, "W" ++ "_curve", "3D",
                             [[vzero, vlit 1 2 3].map fun p => ⟨p, "AUTO", "AUTO"⟩], 0.01, 6,
                             (some "CableRed").toList, 0⟩] :=
  add_bezier_cable_nonempty "W" [vzero, vlit 1 2 3] 0.01 (some "CableRed") emptyState
    (by decide)

end GenModel
